import Mathlib

/-!
Verification of the ray-intersection engine of `bevy_mod_raycast`
(sources: `src/raycast.rs`, `src/lib.rs`).

Shallow embedding conventions:
* `f32` values are embedded as exact rationals `ℚ`; the machine-epsilon
  threshold `std::f32::EPSILON = 2^-23` and `f32::MAX` are the exact rational
  constants the code compares against.
* Fallible / panicking code is embedded in `Except String`; a `panic!` becomes
  `.err msg` with the panic message.
* Types from `crate::primitives` and `crate::bounding` (`Ray3d`, `Triangle`,
  `Intersection`, `BoundingSphere`, `BoundVol`) are not part of the two given
  source files; they are modelled from the spec where so marked.
-/

/-- `std::f32::EPSILON` = 2^-23, as the exact rational the code compares with. -/
def EPSILON : ℚ := 1 / 8388608

/-- `f32::MAX` = (2 - 2^-23) * 2^127 = 2^128 - 2^104, as an exact rational. -/
def f32MAX : ℚ := 2 ^ 128 - 2 ^ 104

/-- Exact rational square root: the nonnegative rational square root when it
exists, `0` otherwise.  Used only to model `Vec3::normalize` on vectors whose
squared length is a perfect rational square (the idealization of `f32` sqrt). -/
def ratSqrt (q : ℚ) : ℚ :=
  let n := Nat.sqrt q.num.natAbs
  let d := Nat.sqrt q.den
  if 0 ≤ q.num ∧ n * n = q.num.natAbs ∧ d * d = q.den then (n : ℚ) / (d : ℚ) else 0

/-- glam `Vec3`, embedded with exact rational components. -/
@[ext]
structure Vec3 where
  x : ℚ
  y : ℚ
  z : ℚ
deriving DecidableEq

namespace Vec3

def zero : Vec3 := ⟨0, 0, 0⟩

/-- Componentwise addition (glam `Vec3: Add`). -/
def add (a b : Vec3) : Vec3 := ⟨a.x + b.x, a.y + b.y, a.z + b.z⟩

/-- Componentwise subtraction (glam `Vec3: Sub`). -/
def sub (a b : Vec3) : Vec3 := ⟨a.x - b.x, a.y - b.y, a.z - b.z⟩

/-- Componentwise multiplication (glam `Vec3: Mul<Vec3>`). -/
def mulV (a b : Vec3) : Vec3 := ⟨a.x * b.x, a.y * b.y, a.z * b.z⟩

/-- Scalar multiplication (glam `Vec3 * f32` / `f32 * Vec3`). -/
def smul (q : ℚ) (a : Vec3) : Vec3 := ⟨q * a.x, q * a.y, q * a.z⟩

instance : Add Vec3 := ⟨add⟩

instance : Sub Vec3 := ⟨sub⟩

theorem add_def (a b : Vec3) : a + b = add a b := rfl

theorem sub_def (a b : Vec3) : a - b = sub a b := rfl

/-- glam `Vec3::dot`. -/
def dot (a b : Vec3) : ℚ := a.x * b.x + a.y * b.y + a.z * b.z

/-- glam `Vec3::cross`. -/
def cross (a b : Vec3) : Vec3 :=
  ⟨a.y * b.z - a.z * b.y, a.z * b.x - a.x * b.z, a.x * b.y - a.y * b.x⟩

/-- glam `Vec3::length_squared`. -/
def lengthSquared (a : Vec3) : ℚ := dot a a

/-- glam `Vec3::max_element`. -/
def maxElement (a : Vec3) : ℚ := max a.x (max a.y a.z)

/-- glam `Vec3::normalize`, idealized over ℚ via `ratSqrt`. -/
def normalize (a : Vec3) : Vec3 := smul (1 / ratSqrt (lengthSquared a)) a

end Vec3

/-- Modelled from the spec: `Ray3d` (from `crate::primitives`, not in `src/`)
is "an immutable directed line in 3D — origin point and unit direction"
(spec section 3); results of the triangle algorithms reuse this shape as
"(hit point as origin, hit normal as direction)". -/
@[ext]
structure Ray3d where
  origin : Vec3
  direction : Vec3
deriving DecidableEq

/-- Modelled from the spec: `Ray3d::new` stores the origin and the
*normalized* direction (spec section 3: "direction: 3D unit vector ...
normalized where constructed"); the repository's own unit tests
(`raycast.rs` tests) confirm the normalization (normal `(-9,0,0)` is reported
as `(-1,0,0)`). -/
def Ray3d.new (o d : Vec3) : Ray3d := ⟨o, d.normalize⟩

/-- Modelled from the spec: `Triangle` (from `crate::primitives`, not in
`src/`): "three world-space vertices (v0, v1, v2)" (spec section 3). -/
@[ext]
structure Triangle where
  v0 : Vec3
  v1 : Vec3
  v2 : Vec3
deriving DecidableEq

/-- `Backfaces` from `raycast.rs`. -/
inductive Backfaces where
  | Cull
  | Include
deriving DecidableEq

/-- `RaycastAlgorithm` from `raycast.rs`. -/
inductive RaycastAlgorithm where
  | Geometric
  | MollerTrumbore (backfaces : Backfaces)
deriving DecidableEq

/-- `impl Default for RaycastAlgorithm` from `raycast.rs`. -/
def RaycastAlgorithm.default : RaycastAlgorithm := .MollerTrumbore .Cull

/-- The Möller–Trumbore determinant `vector_v0_to_v1.dot(p_vec)`
(`raycast.rs`, `raycast_moller_trumbore`). -/
def mtDet (ray : Ray3d) (tri : Triangle) : ℚ :=
  (tri.v1 - tri.v0).dot (ray.direction.cross (tri.v2 - tri.v0))

/-- Barycentric `u = t_vec.dot(p_vec) * determinant_inverse` from
`raycast_moller_trumbore`. -/
def mtU (ray : Ray3d) (tri : Triangle) : ℚ :=
  (ray.origin - tri.v0).dot (ray.direction.cross (tri.v2 - tri.v0)) * (1 / mtDet ray tri)

/-- Barycentric `v = ray.direction().dot(q_vec) * determinant_inverse` from
`raycast_moller_trumbore`. -/
def mtV (ray : Ray3d) (tri : Triangle) : ℚ :=
  ray.direction.dot ((ray.origin - tri.v0).cross (tri.v1 - tri.v0)) * (1 / mtDet ray tri)

/-- Ray parameter `t = vector_v0_to_v2.dot(q_vec) * determinant_inverse` from
`raycast_moller_trumbore`. -/
def mtT (ray : Ray3d) (tri : Triangle) : ℚ :=
  (tri.v2 - tri.v0).dot ((ray.origin - tri.v0).cross (tri.v1 - tri.v0)) * (1 / mtDet ray tri)

/-- The part of `raycast_moller_trumbore` after the back-face / parallel
guard (`raycast.rs` lines 68-89). -/
def mtCandidate (ray : Ray3d) (tri : Triangle) : Option Ray3d :=
  let u := mtU ray tri
  if ¬ (0 ≤ u ∧ u ≤ 1) then none
  else
    let v := mtV ray tri
    if v < 0 ∨ u + v > 1 then none
    else
      let t := mtT ray tri
      let point := ray.origin + Vec3.smul t ray.direction
      let normal := (tri.v1 - tri.v0).cross (tri.v2 - tri.v0)
      some (Ray3d.new point normal)

/-- `raycast_moller_trumbore` from `raycast.rs`: the determinant guard
depends on the back-face policy, the rest is `mtCandidate`. -/
def raycast_moller_trumbore (ray : Ray3d) (tri : Triangle) (backfaceCulling : Backfaces) :
    Option Ray3d :=
  let det := mtDet ray tri
  match backfaceCulling with
  | .Cull => if det < EPSILON then none else mtCandidate ray tri
  | .Include => if |det| < EPSILON then none else mtCandidate ray tri

/-- The unnormalized triangle normal `(v1 - v0) × (v2 - v0)` used by
`raycast_geometric` (and as the reported normal of both algorithms). -/
def geomNormal (tri : Triangle) : Vec3 :=
  (tri.v1 - tri.v0).cross (tri.v2 - tri.v0)

/-- The plane parameter of `raycast_geometric`, exactly as the code computes
it: `t = (triangle_normal.dot(ray.origin()) + d) / n_dot_ray_direction` with
`d = triangle_normal.dot(triangle.v0)`. -/
def geomT (ray : Ray3d) (tri : Triangle) : ℚ :=
  ((geomNormal tri).dot ray.origin + (geomNormal tri).dot tri.v0) /
    ((geomNormal tri).dot ray.direction)

/-- `raycast_geometric` from `raycast.rs`. -/
def raycast_geometric (ray : Ray3d) (tri : Triangle) : Option Ray3d :=
  let n := geomNormal tri
  let nDotRayDirection := n.dot ray.direction
  if |nDotRayDirection| < EPSILON then none
  else
    let t := geomT ray tri
    if t < 0 then none
    else
      let point := ray.origin + Vec3.smul t ray.direction
      if n.dot ((tri.v1 - tri.v0).cross (point - tri.v0)) < 0 then none
      else if n.dot ((tri.v2 - tri.v1).cross (point - tri.v1)) < 0 then none
      else if n.dot ((tri.v0 - tri.v2).cross (point - tri.v2)) < 0 then none
      else some (Ray3d.new point n)

/-- `ray_triangle_intersection` from `raycast.rs`. -/
def ray_triangle_intersection (ray : Ray3d) (tri : Triangle) (algorithm : RaycastAlgorithm) :
    Option Ray3d :=
  match algorithm with
  | .Geometric => raycast_geometric ray tri
  | .MollerTrumbore backfaceCulling => raycast_moller_trumbore ray tri backfaceCulling

/-- glam `Vec4` (only what `Mat4::project_point3` needs). -/
@[ext]
structure Vec4 where
  x : ℚ
  y : ℚ
  z : ℚ
  w : ℚ
deriving DecidableEq

/-- Componentwise addition (glam `Vec4: Add`). -/
def Vec4.add (a b : Vec4) : Vec4 := ⟨a.x + b.x, a.y + b.y, a.z + b.z, a.w + b.w⟩

/-- glam `Vec4 * f32`. -/
def Vec4.mulS (a : Vec4) (q : ℚ) : Vec4 := ⟨a.x * q, a.y * q, a.z * q, a.w * q⟩

/-- glam `Quat` (bevy rotations), exact rational components. -/
@[ext]
structure Quat where
  x : ℚ
  y : ℚ
  z : ℚ
  w : ℚ
deriving DecidableEq

/-- glam `Mat4`: four column axes. -/
@[ext]
structure Mat4 where
  xAxis : Vec4
  yAxis : Vec4
  zAxis : Vec4
  wAxis : Vec4
deriving DecidableEq

/-- glam `Mat4::project_point3`: multiply by the matrix as a homogeneous point
and divide by the resulting `w` component. -/
def Mat4.projectPoint3 (m : Mat4) (p : Vec3) : Vec3 :=
  let res := m.wAxis.add ((m.zAxis.mulS p.z).add ((m.yAxis.mulS p.y).add (m.xAxis.mulS p.x)))
  ⟨res.x * (1 / res.w), res.y * (1 / res.w), res.z * (1 / res.w)⟩

/-- glam `Mat4::from_scale_rotation_translation` (quaternion to scaled axes,
translation in the `w` axis). -/
def Mat4.fromScaleRotationTranslation (scale : Vec3) (rotation : Quat) (translation : Vec3) :
    Mat4 :=
  let x2 := rotation.x + rotation.x
  let y2 := rotation.y + rotation.y
  let z2 := rotation.z + rotation.z
  let xx := rotation.x * x2
  let xy := rotation.x * y2
  let xz := rotation.x * z2
  let yy := rotation.y * y2
  let yz := rotation.y * z2
  let zz := rotation.z * z2
  let wx := rotation.w * x2
  let wy := rotation.w * y2
  let wz := rotation.w * z2
  { xAxis := ⟨(1 - (yy + zz)) * scale.x, (xy + wz) * scale.x, (xz - wy) * scale.x, 0⟩
    yAxis := ⟨(xy - wz) * scale.y, (1 - (xx + zz)) * scale.y, (yz + wx) * scale.y, 0⟩
    zAxis := ⟨(xz + wy) * scale.z, (yz - wx) * scale.z, (1 - (xx + yy)) * scale.z, 0⟩
    wAxis := ⟨translation.x, translation.y, translation.z, 1⟩ }

/-- bevy `GlobalTransform` (translation, rotation, scale). -/
@[ext]
structure GlobalTransform where
  translation : Vec3
  rotation : Quat
  scale : Vec3
deriving DecidableEq

/-- bevy `GlobalTransform::compute_matrix`. -/
def GlobalTransform.computeMatrix (t : GlobalTransform) : Mat4 :=
  Mat4.fromScaleRotationTranslation t.scale t.rotation t.translation

/-- bevy `Entity`, embedded as a bare identifier. -/
abbrev Entity := ℕ

/-- glam `Vec2` (only carried by `RayCastMethod::Screenspace`). -/
@[ext]
structure Vec2 where
  x : ℚ
  y : ℚ
deriving DecidableEq

/-- Modelled from the spec: `Intersection` (from `crate::primitives`, not in
`src/`): "a ray describing (hit point as origin, hit normal as direction) ...
plus scalar hit distance ... and an optional copy of the exact triangle hit"
(spec section 3).  The distance stored by `ray_mesh_intersection` is the
squared distance. -/
@[ext]
structure Intersection where
  ray : Ray3d
  distance : ℚ
  triangle : Option Triangle
deriving DecidableEq

/-- Modelled from the spec: `BoundingSphere` (from `crate::bounding`, not in
`src/`): "center (origin) point and radius" (spec section 3). -/
@[ext]
structure BoundingSphere where
  origin : Vec3
  radius : ℚ
deriving DecidableEq

/-- Modelled from the spec: `BoundVol` (from `crate::bounding`, not in
`src/`): an optional bounding sphere; "the sphere exists but has no defined
radius yet (uncomputed)" is the `none` case of the inner option
(spec section 4.5). -/
@[ext]
structure BoundVol where
  sphere : Option BoundingSphere
deriving DecidableEq

/-- bevy `Visible` (only the `is_visible` flag is read). -/
@[ext]
structure Visible where
  isVisible : Bool
deriving DecidableEq

/-- `RayCastMethod` from `lib.rs`. -/
inductive RayCastMethod where
  | Screenspace (cursorPosScreen : Vec2)
  | Transform
deriving DecidableEq

/-- `RayCastSource<T>` from `lib.rs` (the phantom type parameter carries no
data and is dropped). -/
@[ext]
structure RayCastSource where
  castMethod : RayCastMethod
  ray : Option Ray3d
  intersections : List (Entity × Intersection)
deriving DecidableEq

/-- `PluginState<T>` from `lib.rs` (without the debug-feature flag). -/
@[ext]
structure PluginState where
  enabled : Bool
deriving DecidableEq

/-- bevy `PrimitiveTopology`. -/
inductive PrimitiveTopology where
  | PointList
  | LineList
  | LineStrip
  | TriangleList
  | TriangleStrip
deriving DecidableEq

/-- bevy `VertexAttributeValues` (only the `Float32x3` arm is read; every
other arm is collapsed into `OtherType`). -/
inductive VertexAttributeValues where
  | Float32x3 (positions : List Vec3)
  | OtherType
deriving DecidableEq

/-- bevy `Indices`; `U16` values are widened with `as u32`, which is lossless,
so both arms carry plain naturals. -/
inductive Indices where
  | U16 (values : List ℕ)
  | U32 (values : List ℕ)
deriving DecidableEq

/-- bevy `Mesh`, restricted to the three pieces `update_raycast` reads:
topology, the `ATTRIBUTE_POSITION` attribute, and the index list. -/
@[ext]
structure Mesh where
  primitiveTopology : PrimitiveTopology
  attributePosition : Option VertexAttributeValues
  indices : Option Indices
deriving DecidableEq

/-- One row of `culling_query` in `update_raycast`. -/
abbrev CullEntry := Visible × Option BoundVol × GlobalTransform × Entity

/-- One row of `mesh_query` in `update_raycast` (`Handle<Mesh>` is a bare
identifier looked up in the mesh store). -/
abbrev MeshEntry := ℕ × GlobalTransform × Entity

/-- The sphere discriminant test of the broad phase (`lib.rs` lines 366-374):
`(dir·(origin − center))² − (|origin − center|² − scaledRadius²)` with
`scaledRadius = 1.01 * radius * max scale component`. -/
def sphereDet (ray : Ray3d) (sphere : BoundingSphere) (transform : GlobalTransform) : ℚ :=
  let scaledRadius := 1.01 * sphere.radius * transform.scale.maxElement
  let translatedOrigin := sphere.origin.mulV transform.scale + transform.translation
  (ray.direction.dot (ray.origin - translatedOrigin)) ^ 2 -
    ((ray.origin - translatedOrigin).lengthSquared - scaledRadius ^ 2)

/-- The `bound_hit` value computed per culling-query row (`lib.rs` 364-380):
pass-through `true` when there is no bounding volume or its sphere is not yet
defined, else the discriminant test. -/
def boundHit (ray : Ray3d) (boundVol : Option BoundVol) (transform : GlobalTransform) : Bool :=
  match boundVol with
  | some bv =>
    match bv.sphere with
    | some sphere => decide (sphereDet ray sphere transform ≥ 0)
    | none => true
  | none => true

/-- The broad-phase `culled_list` of `update_raycast` (`lib.rs` 358-389). -/
def culledList (ray : Ray3d) (cullingQuery : List CullEntry) : List Entity :=
  cullingQuery.filterMap fun entry =>
    if entry.1.isVisible && boundHit ray entry.2.1 entry.2.2.1 then some entry.2.2.2 else none

/-- `RaycastAlgorithm::default()` is used by `ray_mesh_intersection`. -/
def minVertDistSq (ray : Ray3d) (tri : Triangle) : ℚ :=
  min (min |(tri.v0 - ray.origin).lengthSquared| |(tri.v1 - ray.origin).lengthSquared|)
    |(tri.v2 - ray.origin).lengthSquared|

/-- The per-triangle loop of `ray_mesh_intersection` (`lib.rs` 474-508),
carrying `pick_intersection` and `min_pick_distance_squared`.  Out-of-range
vertex indexing is a Rust panic, embedded as `.err`.  The
`fold(INFINITY, min)` over the three vertex distances is their minimum. -/
def rmiLoop (meshToWorld : Mat4) (vertexPositions : List Vec3) (pickRay : Ray3d) :
    List ℕ → Option Intersection → ℚ → Except String (Option Intersection)
  | index0 :: index1 :: index2 :: rest, pickIntersection, minPickDistanceSquared =>
    match vertexPositions[index0]?, vertexPositions[index1]?, vertexPositions[index2]? with
    | some p0, some p1, some p2 =>
      let w0 := meshToWorld.projectPoint3 p0
      let w1 := meshToWorld.projectPoint3 p1
      let w2 := meshToWorld.projectPoint3 p2
      let worldTriangle : Triangle := ⟨w0, w1, w2⟩
      if minVertDistSq pickRay worldTriangle > minPickDistanceSquared then
        rmiLoop meshToWorld vertexPositions pickRay rest pickIntersection minPickDistanceSquared
      else
        match ray_triangle_intersection pickRay worldTriangle RaycastAlgorithm.default with
        | some intersection =>
          let distance := |(intersection.origin - pickRay.origin).lengthSquared|
          if distance < minPickDistanceSquared then
            rmiLoop meshToWorld vertexPositions pickRay rest
              (some ⟨intersection, distance, some worldTriangle⟩) distance
          else
            rmiLoop meshToWorld vertexPositions pickRay rest pickIntersection
              minPickDistanceSquared
        | none =>
          rmiLoop meshToWorld vertexPositions pickRay rest pickIntersection
            minPickDistanceSquared
    | _, _, _ => .error "index out of bounds"
  | _, pickIntersection, _ => .ok pickIntersection

/-- `ray_mesh_intersection` from `lib.rs` (458-511). -/
def ray_mesh_intersection (meshToWorld : Mat4) (vertexPositions : List Vec3) (pickRay : Ray3d)
    (indices : List ℕ) : Except String (Option Intersection) :=
  if indices.length % 3 = 0 then
    rmiLoop meshToWorld vertexPositions pickRay indices none f32MAX
  else
    .ok none

/-- Rust `f32::partial_cmp` semantics, over `Option ℚ` where `none` stands for
an unorderable value (NaN): `none` whenever either side is unorderable. -/
def fpCmpOpt (a b : Option ℚ) : Option Ordering :=
  match a, b with
  | some x, some y => some (if x < y then .lt else if x = y then .eq else .gt)
  | _, _ => none

/-- The sort comparator of `update_raycast` (`lib.rs` 445-449):
`a.1.distance().partial_cmp(&b.1.distance()).unwrap_or(Ordering::Equal)`. -/
def pickCompare (a b : Entity × Intersection) : Ordering :=
  (fpCmpOpt (some a.2.distance) (some b.2.distance)).getD Ordering.eq

/-- The (total pre)order induced by `pickCompare`, used to model
`Vec::sort_by`: `a` may precede `b` iff the comparator does not say
`Greater`. -/
def pickLE (a b : Entity × Intersection) : Prop := pickCompare a b ≠ Ordering.gt

instance : DecidableRel pickLE := fun a b => by unfold pickLE; infer_instance

/-- `Vec::sort_by` with `pickCompare`: a stable sort; for the total preorder
induced by the comparator, Rust's stable merge sort and insertion sort return
the same list. -/
def sortPicks (picks : List (Entity × Intersection)) : List (Entity × Intersection) :=
  List.insertionSort pickLE picks

/-- The narrow-phase body run for one mesh in `update_raycast`
(`lib.rs` 397-439): the non-TriangleList topology case only logs `error!` and
falls through (logging does not affect state); a missing position attribute,
a non-`Float32x3` position attribute, and a missing index list are `panic!`s,
embedded as `.err` with the panic message. -/
def meshPick : Mesh → Ray3d → GlobalTransform → Entity →
    Except String (Option (Entity × Intersection))
  | ⟨_, none, _⟩, _, _, _ => .error "Mesh does not contain vertex positions"
  | ⟨_, some (.Float32x3 vertexPositions), some (.U16 vector)⟩, ray, transform, entity =>
    (ray_mesh_intersection transform.computeMatrix vertexPositions ray vector).map
      (fun r => r.map fun i => (entity, i))
  | ⟨_, some (.Float32x3 vertexPositions), some (.U32 vector)⟩, ray, transform, entity =>
    (ray_mesh_intersection transform.computeMatrix vertexPositions ray vector).map
      (fun r => r.map fun i => (entity, i))
  | ⟨_, some (.Float32x3 _), none⟩, _, _, _ => .error "No index matrix found in mesh"
  | ⟨_, some .OtherType, _⟩, _, _, _ => .error "Unexpected vertex types in ATTRIBUTE_POSITION"

/-- One `mesh_query` row of the narrow phase: an unresolvable mesh handle is
silently skipped (`meshes.get` returning `None` makes the closure yield
`None`). -/
def processTarget (meshes : List (ℕ × Mesh)) (ray : Ray3d) (entry : MeshEntry) :
    Except String (Option (Entity × Intersection)) :=
  match meshes.lookup entry.1 with
  | some mesh => meshPick mesh ray entry.2.1 entry.2.2
  | none => .ok none

/-- `Iterator::filter_map` over a fallible body: the first panic aborts the
whole computation. -/
def exceptFilterMap (f : α → Except String (Option β)) : List α → Except String (List β)
  | [] => .ok []
  | a :: rest =>
    match f a with
    | .error e => .error e
    | .ok none => exceptFilterMap f rest
    | .ok (some b) => (exceptFilterMap f rest).map (b :: ·)

/-- The value a successful `exceptFilterMap` keeps for one element: the inner
option of an `.ok`, `none` for an `.error` (unused on successful runs). -/
def okJoin : Except String (Option β) → Option β
  | .ok ob => ob
  | .error _ => none

/-- Effectful map over the sources; the first panic aborts the whole
computation. -/
def exceptMapList (f : α → Except String β) : List α → Except String (List β)
  | [] => .ok []
  | a :: rest =>
    match f a with
    | .error e => .error e
    | .ok b => (exceptMapList f rest).map (b :: ·)

/-- The per-source body of `update_raycast` (`lib.rs` 350-452): skip sources
without a ray; otherwise clear the intersections, cull, run the narrow phase
over the culled mesh query, sort by distance and store. -/
def updateOneSource (meshes : List (ℕ × Mesh)) (cullingQuery : List CullEntry)
    (meshQuery : List MeshEntry) : RayCastSource → Except String RayCastSource
  | ⟨castMethod, none, intersections⟩ => .ok ⟨castMethod, none, intersections⟩
  | ⟨castMethod, some ray, _⟩ =>
    match exceptFilterMap (processTarget meshes ray)
        (meshQuery.filter fun entry => (culledList ray cullingQuery).contains entry.2.2) with
    | .error e => .error e
    | .ok picks => .ok ⟨castMethod, some ray, sortPicks picks⟩

/-- `update_raycast` from `lib.rs` (334-454), over an explicit snapshot of the
ECS queries.  A `panic!` anywhere surfaces as `.err` for the whole run. -/
def update_raycast (state : PluginState) (meshes : List (ℕ × Mesh))
    (pickSourceQuery : List RayCastSource) (cullingQuery : List CullEntry)
    (meshQuery : List MeshEntry) : Except String (List RayCastSource) :=
  if !state.enabled then .ok pickSourceQuery
  else exceptMapList (updateOneSource meshes cullingQuery meshQuery) pickSourceQuery

/-- World-space triangles of a mesh, in index-list order (three indices per
triangle, trailing partial chunks dropped); spec-side companion of the
`rmiLoop` traversal. -/
def worldTriangles (meshToWorld : Mat4) (vertexPositions : List Vec3) : List ℕ → List Triangle
  | i0 :: i1 :: i2 :: rest =>
    ⟨meshToWorld.projectPoint3 (vertexPositions.getD i0 Vec3.zero),
      meshToWorld.projectPoint3 (vertexPositions.getD i1 Vec3.zero),
      meshToWorld.projectPoint3 (vertexPositions.getD i2 Vec3.zero)⟩ ::
      worldTriangles meshToWorld vertexPositions rest
  | _ => []

/-- The claim's description of Mesh-Intersection, following the spec's words
(spec section 4.4, without the vertex pre-check): "run the
triangle-intersection algorithm; if it returns a hit, compute squared distance
from ray origin to hit point, and if strictly smaller than the best found so
far, record it (hit ray, squared distance, exact world-space triangle) as the
new best". -/
def closestHitLoop (pickRay : Ray3d) :
    List Triangle → Option Intersection → ℚ → Option Intersection
  | [], pick, _ => pick
  | tri :: rest, pick, minD =>
    match ray_triangle_intersection pickRay tri RaycastAlgorithm.default with
    | some intersection =>
      let distance := |(intersection.origin - pickRay.origin).lengthSquared|
      if distance < minD then
        closestHitLoop pickRay rest (some ⟨intersection, distance, some tri⟩) distance
      else closestHitLoop pickRay rest pick minD
    | none => closestHitLoop pickRay rest pick minD

/-- The spec's words for the whole of Mesh-Intersection: the strictly-closest
hit over all triangles of the mesh, absent when no triangle is hit. -/
def closestHit (meshToWorld : Mat4) (vertexPositions : List Vec3) (pickRay : Ray3d)
    (indices : List ℕ) : Option Intersection :=
  closestHitLoop pickRay (worldTriangles meshToWorld vertexPositions indices) none f32MAX

/-- Soundness condition for the vertex-distance pre-check of `rmiLoop`: every
triangle the default algorithm hits has its hit point no closer to the ray
origin than its closest vertex. -/
def pruneSafeB (meshToWorld : Mat4) (vertexPositions : List Vec3) (pickRay : Ray3d)
    (indices : List ℕ) : Bool :=
  (worldTriangles meshToWorld vertexPositions indices).all fun tri =>
    match ray_triangle_intersection pickRay tri RaycastAlgorithm.default with
    | some intersection =>
      decide (minVertDistSq pickRay tri ≤ |(intersection.origin - pickRay.origin).lengthSquared|)
    | none => true

theorem pruneSafeB_spec (meshToWorld : Mat4) (verts : List Vec3) (ray : Ray3d) (idx : List ℕ)
    (h : pruneSafeB meshToWorld verts ray idx = true) :
    ∀ tri ∈ worldTriangles meshToWorld verts idx, ∀ r,
      ray_triangle_intersection ray tri RaycastAlgorithm.default = some r →
      minVertDistSq ray tri ≤ |(r.origin - ray.origin).lengthSquared| := by
  intro tri htri r hr
  have h2 := List.all_eq_true.mp h tri htri
  simp only at h2
  rw [hr] at h2
  exact of_decide_eq_true h2

/-- `rmiLoop` computes exactly the spec-side strict-minimum fold
`closestHitLoop` from the same state, provided every index is in range and
the vertex-distance pre-check is sound for every hit triangle of the list. -/
theorem rmiLoop_eq (meshToWorld : Mat4) (verts : List Vec3) (ray : Ray3d) :
    ∀ (idx : List ℕ) (pick : Option Intersection) (minD : ℚ),
      (∀ i ∈ idx, i < verts.length) →
      (∀ tri ∈ worldTriangles meshToWorld verts idx, ∀ r,
        ray_triangle_intersection ray tri RaycastAlgorithm.default = some r →
        minVertDistSq ray tri ≤ |(r.origin - ray.origin).lengthSquared|) →
      rmiLoop meshToWorld verts ray idx pick minD
        = .ok (closestHitLoop ray (worldTriangles meshToWorld verts idx) pick minD)
  | [], _, _, _, _ => rfl
  | [_], _, _, _, _ => rfl
  | [_, _], _, _, _, _ => rfl
  | i0 :: i1 :: i2 :: rest, pick, minD, hb, hs => by
    have h0 : i0 < verts.length := hb i0 (by simp)
    have h1 : i1 < verts.length := hb i1 (by simp)
    have h2 : i2 < verts.length := hb i2 (by simp)
    have hbrest : ∀ i ∈ rest, i < verts.length := fun i hi => hb i (by simp [hi])
    have hsrest : ∀ tri ∈ worldTriangles meshToWorld verts rest, ∀ r,
        ray_triangle_intersection ray tri RaycastAlgorithm.default = some r →
        minVertDistSq ray tri ≤ |(r.origin - ray.origin).lengthSquared| := by
      intro tri htri r hr
      exact hs tri (by simp [worldTriangles, htri]) r hr
    have e0 : verts[i0]? = some (verts.getD i0 Vec3.zero) := by
      rw [List.getElem?_eq_getElem h0, List.getD_eq_getElem?_getD,
        List.getElem?_eq_getElem h0]
      rfl
    have e1 : verts[i1]? = some (verts.getD i1 Vec3.zero) := by
      rw [List.getElem?_eq_getElem h1, List.getD_eq_getElem?_getD,
        List.getElem?_eq_getElem h1]
      rfl
    have e2 : verts[i2]? = some (verts.getD i2 Vec3.zero) := by
      rw [List.getElem?_eq_getElem h2, List.getD_eq_getElem?_getD,
        List.getElem?_eq_getElem h2]
      rfl
    have hw : worldTriangles meshToWorld verts (i0 :: i1 :: i2 :: rest)
        = (⟨meshToWorld.projectPoint3 (verts.getD i0 Vec3.zero),
            meshToWorld.projectPoint3 (verts.getD i1 Vec3.zero),
            meshToWorld.projectPoint3 (verts.getD i2 Vec3.zero)⟩ : Triangle)
          :: worldTriangles meshToWorld verts rest := rfl
    have htri : (⟨meshToWorld.projectPoint3 (verts.getD i0 Vec3.zero),
        meshToWorld.projectPoint3 (verts.getD i1 Vec3.zero),
        meshToWorld.projectPoint3 (verts.getD i2 Vec3.zero)⟩ : Triangle)
        ∈ worldTriangles meshToWorld verts (i0 :: i1 :: i2 :: rest) := by
      rw [hw]
      exact List.mem_cons_self _ _
    simp only [rmiLoop, e0, e1, e2, hw, closestHitLoop]
    by_cases hprune : minVertDistSq ray
        ⟨meshToWorld.projectPoint3 (verts.getD i0 Vec3.zero),
          meshToWorld.projectPoint3 (verts.getD i1 Vec3.zero),
          meshToWorld.projectPoint3 (verts.getD i2 Vec3.zero)⟩ > minD
    · rw [if_pos hprune]
      rw [rmiLoop_eq meshToWorld verts ray rest pick minD hbrest hsrest]
      rcases hr : ray_triangle_intersection ray
          ⟨meshToWorld.projectPoint3 (verts.getD i0 Vec3.zero),
            meshToWorld.projectPoint3 (verts.getD i1 Vec3.zero),
            meshToWorld.projectPoint3 (verts.getD i2 Vec3.zero)⟩
          RaycastAlgorithm.default with _ | r
      · simp only [hr]
      · have hge := hs _ htri r hr
        have hnlt : ¬ |(r.origin - ray.origin).lengthSquared| < minD := by
          intro hlt
          have := lt_of_le_of_lt hge hlt
          linarith
        simp only [hr, if_neg hnlt]
    · rw [if_neg hprune]
      rcases hr : ray_triangle_intersection ray
          ⟨meshToWorld.projectPoint3 (verts.getD i0 Vec3.zero),
            meshToWorld.projectPoint3 (verts.getD i1 Vec3.zero),
            meshToWorld.projectPoint3 (verts.getD i2 Vec3.zero)⟩
          RaycastAlgorithm.default with _ | r
      · simp only [hr]
        exact rmiLoop_eq meshToWorld verts ray rest pick minD hbrest hsrest
      · simp only [hr]
        by_cases hlt : |(r.origin - ray.origin).lengthSquared| < minD
        · rw [if_pos hlt, if_pos hlt]
          exact rmiLoop_eq meshToWorld verts ray rest _ _ hbrest hsrest
        · rw [if_neg hlt, if_neg hlt]
          exact rmiLoop_eq meshToWorld verts ray rest pick minD hbrest hsrest

/-- C2 (amended): with every index in range and the vertex-distance pre-check
sound for every hit triangle (each hit point at least as far from the ray
origin as the triangle's closest vertex), `ray_mesh_intersection` on an index
list whose length is a multiple of 3 returns exactly the spec-described
closest hit: the strictly-minimal-squared-distance hit over all triangles the
default algorithm reports as hit (recording hit ray, squared distance and
world-space triangle), absent when no triangle is hit. -/
theorem ray_mesh_intersection_closest_hit (meshToWorld : Mat4) (verts : List Vec3)
    (ray : Ray3d) (idx : List ℕ) (h3 : idx.length % 3 = 0)
    (hb : ∀ i ∈ idx, i < verts.length)
    (hs : pruneSafeB meshToWorld verts ray idx = true) :
    ray_mesh_intersection meshToWorld verts ray idx
      = .ok (closestHit meshToWorld verts ray idx) := by
  unfold ray_mesh_intersection closestHit
  rw [if_pos h3]
  exact rmiLoop_eq meshToWorld verts ray idx none f32MAX hb
    (pruneSafeB_spec meshToWorld verts ray idx hs)

/-- Witness for C2 on a one-triangle mesh whose hit point (a vertex) is
exactly as far from the ray origin as the nearest vertex. -/
theorem ray_mesh_intersection_closest_hit_witness :
    (([0, 1, 2] : List ℕ).length % 3 = 0 ∧
        (∀ i ∈ ([0, 1, 2] : List ℕ), i < ([⟨1, 0, 0⟩, ⟨1, 0, 1⟩, ⟨1, 1, 0⟩] : List Vec3).length) ∧
        pruneSafeB ⟨⟨1, 0, 0, 0⟩, ⟨0, 1, 0, 0⟩, ⟨0, 0, 1, 0⟩, ⟨0, 0, 0, 1⟩⟩
          [⟨1, 0, 0⟩, ⟨1, 0, 1⟩, ⟨1, 1, 0⟩] ⟨⟨0, 0, 0⟩, ⟨1, 0, 0⟩⟩ [0, 1, 2] = true) ∧
      ray_mesh_intersection ⟨⟨1, 0, 0, 0⟩, ⟨0, 1, 0, 0⟩, ⟨0, 0, 1, 0⟩, ⟨0, 0, 0, 1⟩⟩
          [⟨1, 0, 0⟩, ⟨1, 0, 1⟩, ⟨1, 1, 0⟩] ⟨⟨0, 0, 0⟩, ⟨1, 0, 0⟩⟩ [0, 1, 2]
        = .ok (closestHit ⟨⟨1, 0, 0, 0⟩, ⟨0, 1, 0, 0⟩, ⟨0, 0, 1, 0⟩, ⟨0, 0, 0, 1⟩⟩
          [⟨1, 0, 0⟩, ⟨1, 0, 1⟩, ⟨1, 1, 0⟩] ⟨⟨0, 0, 0⟩, ⟨1, 0, 0⟩⟩ [0, 1, 2]) := by
  have hs : pruneSafeB ⟨⟨1, 0, 0, 0⟩, ⟨0, 1, 0, 0⟩, ⟨0, 0, 1, 0⟩, ⟨0, 0, 0, 1⟩⟩
      [⟨1, 0, 0⟩, ⟨1, 0, 1⟩, ⟨1, 1, 0⟩] ⟨⟨0, 0, 0⟩, ⟨1, 0, 0⟩⟩ [0, 1, 2] = true := by
    norm_num [pruneSafeB, worldTriangles, minVertDistSq, ray_triangle_intersection,
      RaycastAlgorithm.default, raycast_moller_trumbore, mtCandidate, mtDet, mtU, mtV, mtT,
      EPSILON, Vec3.add_def, Vec3.sub_def, Vec3.add, Vec3.sub, Vec3.dot, Vec3.cross,
      Vec3.smul, Vec3.lengthSquared, Vec3.normalize, Vec3.zero, ratSqrt, Ray3d.new,
      Mat4.projectPoint3, Vec4.add, Vec4.mulS, List.getD, decide_eq_true_eq,
      abs_of_nonneg]
  exact ⟨⟨by decide, by decide, hs⟩,
    ray_mesh_intersection_closest_hit _ _ _ _ (by decide) (by decide) hs⟩

/-- C2 counterexample: a two-triangle mesh (front triangle at x=1 listed
first, a large triangle crossing the ray at x=1/2 second) on which the
vertex-distance pre-check skips the second triangle, so
`ray_mesh_intersection` returns the x=1 hit at squared distance 1 even though
the default algorithm hits the second triangle at squared distance 1/4: the
result is not the strictly-minimal hit over all hit triangles. -/
theorem ray_mesh_intersection_prune_misses_closest :
    ray_mesh_intersection ⟨⟨1, 0, 0, 0⟩, ⟨0, 1, 0, 0⟩, ⟨0, 0, 1, 0⟩, ⟨0, 0, 0, 1⟩⟩
        [⟨1, -1, 2⟩, ⟨1, 2, -1⟩, ⟨1, -1, -1⟩,
          ⟨1/2, -100, 100⟩, ⟨1/2, 100, 100⟩, ⟨1/2, 0, -100⟩]
        ⟨⟨0, 0, 0⟩, ⟨1, 0, 0⟩⟩ [0, 1, 2, 3, 4, 5]
      = .ok (some ⟨⟨⟨1, 0, 0⟩, ⟨-1, 0, 0⟩⟩, 1, some ⟨⟨1, -1, 2⟩, ⟨1, 2, -1⟩, ⟨1, -1, -1⟩⟩⟩) ∧
      closestHit ⟨⟨1, 0, 0, 0⟩, ⟨0, 1, 0, 0⟩, ⟨0, 0, 1, 0⟩, ⟨0, 0, 0, 1⟩⟩
        [⟨1, -1, 2⟩, ⟨1, 2, -1⟩, ⟨1, -1, -1⟩,
          ⟨1/2, -100, 100⟩, ⟨1/2, 100, 100⟩, ⟨1/2, 0, -100⟩]
        ⟨⟨0, 0, 0⟩, ⟨1, 0, 0⟩⟩ [0, 1, 2, 3, 4, 5]
      = some ⟨⟨⟨1/2, 0, 0⟩, ⟨-1, 0, 0⟩⟩, 1/4,
          some ⟨⟨1/2, -100, 100⟩, ⟨1/2, 100, 100⟩, ⟨1/2, 0, -100⟩⟩⟩ ∧
      ray_mesh_intersection ⟨⟨1, 0, 0, 0⟩, ⟨0, 1, 0, 0⟩, ⟨0, 0, 1, 0⟩, ⟨0, 0, 0, 1⟩⟩
        [⟨1, -1, 2⟩, ⟨1, 2, -1⟩, ⟨1, -1, -1⟩,
          ⟨1/2, -100, 100⟩, ⟨1/2, 100, 100⟩, ⟨1/2, 0, -100⟩]
        ⟨⟨0, 0, 0⟩, ⟨1, 0, 0⟩⟩ [0, 1, 2, 3, 4, 5]
      ≠ .ok (closestHit ⟨⟨1, 0, 0, 0⟩, ⟨0, 1, 0, 0⟩, ⟨0, 0, 1, 0⟩, ⟨0, 0, 0, 1⟩⟩
        [⟨1, -1, 2⟩, ⟨1, 2, -1⟩, ⟨1, -1, -1⟩,
          ⟨1/2, -100, 100⟩, ⟨1/2, 100, 100⟩, ⟨1/2, 0, -100⟩]
        ⟨⟨0, 0, 0⟩, ⟨1, 0, 0⟩⟩ [0, 1, 2, 3, 4, 5]) := by
  have hA : ray_mesh_intersection ⟨⟨1, 0, 0, 0⟩, ⟨0, 1, 0, 0⟩, ⟨0, 0, 1, 0⟩, ⟨0, 0, 0, 1⟩⟩
      [⟨1, -1, 2⟩, ⟨1, 2, -1⟩, ⟨1, -1, -1⟩,
        ⟨1/2, -100, 100⟩, ⟨1/2, 100, 100⟩, ⟨1/2, 0, -100⟩]
      ⟨⟨0, 0, 0⟩, ⟨1, 0, 0⟩⟩ [0, 1, 2, 3, 4, 5]
      = .ok (some ⟨⟨⟨1, 0, 0⟩, ⟨-1, 0, 0⟩⟩, 1, some ⟨⟨1, -1, 2⟩, ⟨1, 2, -1⟩, ⟨1, -1, -1⟩⟩⟩) := by
    norm_num [ray_mesh_intersection, rmiLoop, minVertDistSq, ray_triangle_intersection,
      RaycastAlgorithm.default, raycast_moller_trumbore, mtCandidate, mtDet, mtU, mtV, mtT,
      EPSILON, f32MAX, Vec3.add_def, Vec3.sub_def, Vec3.add, Vec3.sub, Vec3.dot, Vec3.cross,
      Vec3.smul, Vec3.lengthSquared, Vec3.normalize, Vec3.zero, ratSqrt, Ray3d.new,
      Mat4.projectPoint3, Vec4.add, Vec4.mulS, abs_of_nonneg]
  have hB : closestHit ⟨⟨1, 0, 0, 0⟩, ⟨0, 1, 0, 0⟩, ⟨0, 0, 1, 0⟩, ⟨0, 0, 0, 1⟩⟩
      [⟨1, -1, 2⟩, ⟨1, 2, -1⟩, ⟨1, -1, -1⟩,
        ⟨1/2, -100, 100⟩, ⟨1/2, 100, 100⟩, ⟨1/2, 0, -100⟩]
      ⟨⟨0, 0, 0⟩, ⟨1, 0, 0⟩⟩ [0, 1, 2, 3, 4, 5]
      = some ⟨⟨⟨1/2, 0, 0⟩, ⟨-1, 0, 0⟩⟩, 1/4,
          some ⟨⟨1/2, -100, 100⟩, ⟨1/2, 100, 100⟩, ⟨1/2, 0, -100⟩⟩⟩ := by
    norm_num [closestHit, closestHitLoop, worldTriangles, ray_triangle_intersection,
      RaycastAlgorithm.default, raycast_moller_trumbore, mtCandidate, mtDet, mtU, mtV, mtT,
      EPSILON, f32MAX, Vec3.add_def, Vec3.sub_def, Vec3.add, Vec3.sub, Vec3.dot, Vec3.cross,
      Vec3.smul, Vec3.lengthSquared, Vec3.normalize, Vec3.zero, ratSqrt, Ray3d.new,
      Mat4.projectPoint3, Vec4.add, Vec4.mulS, List.getD, abs_of_nonneg]
  refine ⟨hA, hB, ?_⟩
  rw [hA, hB]
  intro h
  have h1 : (1 : ℚ) = 1 / 4 :=
    congrArg Intersection.distance (Option.some.inj (Except.ok.inj h))
  norm_num at h1

/-- C4: for the ray with origin (0,0,0) and direction (1,0,0): Möller–Trumbore
with back-faces included hits the triangle (1,-1,2),(1,2,-1),(1,-1,-1) at
point (1,0,0) with normal direction (-1,0,0); with back-face culling the
reversed-winding triangle (1,-1,-1),(1,2,-1),(1,-1,2) yields no hit; and the
Geometric algorithm on the original winding yields the same hit point and
normal direction. -/
theorem raycast_concrete_scenario :
    raycast_moller_trumbore ⟨⟨0, 0, 0⟩, ⟨1, 0, 0⟩⟩ ⟨⟨1, -1, 2⟩, ⟨1, 2, -1⟩, ⟨1, -1, -1⟩⟩ .Include
        = some ⟨⟨1, 0, 0⟩, ⟨-1, 0, 0⟩⟩ ∧
      raycast_moller_trumbore ⟨⟨0, 0, 0⟩, ⟨1, 0, 0⟩⟩ ⟨⟨1, -1, -1⟩, ⟨1, 2, -1⟩, ⟨1, -1, 2⟩⟩ .Cull
        = none ∧
      raycast_geometric ⟨⟨0, 0, 0⟩, ⟨1, 0, 0⟩⟩ ⟨⟨1, -1, 2⟩, ⟨1, 2, -1⟩, ⟨1, -1, -1⟩⟩
        = some ⟨⟨1, 0, 0⟩, ⟨-1, 0, 0⟩⟩ := by
  refine ⟨?_, ?_, ?_⟩
  · norm_num [raycast_moller_trumbore, mtCandidate, mtDet, mtU, mtV, mtT, EPSILON,
      Vec3.add_def, Vec3.sub_def, Vec3.add, Vec3.sub, Vec3.dot, Vec3.cross, Vec3.smul,
      Ray3d.new, Vec3.normalize, Vec3.lengthSquared, ratSqrt]
  · norm_num [raycast_moller_trumbore, mtCandidate, mtDet, mtU, mtV, mtT, EPSILON,
      Vec3.add_def, Vec3.sub_def, Vec3.add, Vec3.sub, Vec3.dot, Vec3.cross, Vec3.smul]
  · norm_num [raycast_geometric, geomNormal, geomT, EPSILON,
      Vec3.add_def, Vec3.sub_def, Vec3.add, Vec3.sub, Vec3.dot, Vec3.cross, Vec3.smul,
      Ray3d.new, Vec3.normalize, Vec3.lengthSquared, ratSqrt]

/-- C5: whenever Möller–Trumbore with the `Cull` policy reports a hit, the
`Include` policy on the same ray and triangle reports the very same hit, so
`Include` never reports fewer hits than `Cull`. -/
theorem mt_include_superset_of_cull (ray : Ray3d) (tri : Triangle) (r : Ray3d)
    (h : raycast_moller_trumbore ray tri .Cull = some r) :
    raycast_moller_trumbore ray tri .Include = some r := by
  have hC : raycast_moller_trumbore ray tri .Cull
      = if mtDet ray tri < EPSILON then none else mtCandidate ray tri := rfl
  have hI : raycast_moller_trumbore ray tri .Include
      = if |mtDet ray tri| < EPSILON then none else mtCandidate ray tri := rfl
  rw [hC] at h
  rw [hI]
  by_cases hdet : mtDet ray tri < EPSILON
  · rw [if_pos hdet] at h
    exact absurd h (by simp)
  · rw [if_neg hdet] at h
    have habs : ¬ |mtDet ray tri| < EPSILON := by
      push_neg at hdet ⊢
      exact le_trans hdet (le_abs_self _)
    rw [if_neg habs]
    exact h

/-- Witness for C5 at the concrete front-facing triangle of the repository's
tests. -/
theorem mt_include_superset_of_cull_witness :
    raycast_moller_trumbore ⟨⟨0, 0, 0⟩, ⟨1, 0, 0⟩⟩ ⟨⟨1, -1, 2⟩, ⟨1, 2, -1⟩, ⟨1, -1, -1⟩⟩ .Cull
        = some ⟨⟨1, 0, 0⟩, ⟨-1, 0, 0⟩⟩ ∧
      raycast_moller_trumbore ⟨⟨0, 0, 0⟩, ⟨1, 0, 0⟩⟩ ⟨⟨1, -1, 2⟩, ⟨1, 2, -1⟩, ⟨1, -1, -1⟩⟩ .Include
        = some ⟨⟨1, 0, 0⟩, ⟨-1, 0, 0⟩⟩ := by
  have h : raycast_moller_trumbore ⟨⟨0, 0, 0⟩, ⟨1, 0, 0⟩⟩
      ⟨⟨1, -1, 2⟩, ⟨1, 2, -1⟩, ⟨1, -1, -1⟩⟩ .Cull = some ⟨⟨1, 0, 0⟩, ⟨-1, 0, 0⟩⟩ := by
    norm_num [raycast_moller_trumbore, mtCandidate, mtDet, mtU, mtV, mtT, EPSILON,
      Vec3.add_def, Vec3.sub_def, Vec3.add, Vec3.sub, Vec3.dot, Vec3.cross, Vec3.smul,
      Ray3d.new, Vec3.normalize, Vec3.lengthSquared, ratSqrt]
  exact ⟨h, mt_include_superset_of_cull _ _ _ h⟩

/-- C6: an index list whose length is not a multiple of 3 makes
`ray_mesh_intersection` return `None` without panicking (the embedded result
is `.ok none`, not an `.error`). -/
theorem ray_mesh_intersection_bad_index_count (meshToWorld : Mat4)
    (vertexPositions : List Vec3) (pickRay : Ray3d) (indices : List ℕ)
    (h : ¬ indices.length % 3 = 0) :
    ray_mesh_intersection meshToWorld vertexPositions pickRay indices = .ok none := by
  unfold ray_mesh_intersection
  rw [if_neg h]

/-- Witness for C6 on a one-element index list. -/
theorem ray_mesh_intersection_bad_index_count_witness :
    ¬ ([0] : List ℕ).length % 3 = 0 ∧
      ray_mesh_intersection ⟨⟨1, 0, 0, 0⟩, ⟨0, 1, 0, 0⟩, ⟨0, 0, 1, 0⟩, ⟨0, 0, 0, 1⟩⟩ []
        ⟨⟨0, 0, 0⟩, ⟨1, 0, 0⟩⟩ [0] = .ok none :=
  ⟨by decide, ray_mesh_intersection_bad_index_count _ _ _ _ (by decide)⟩

/-- C9: with the channel's global enabled flag false, one run of
`update_raycast` changes nothing: every source (its cast method, ray and
intersection list) is returned exactly as it was. -/
theorem update_raycast_disabled_no_change (state : PluginState) (meshes : List (ℕ × Mesh))
    (pickSourceQuery : List RayCastSource) (cullingQuery : List CullEntry)
    (meshQuery : List MeshEntry) (h : state.enabled = false) :
    update_raycast state meshes pickSourceQuery cullingQuery meshQuery = .ok pickSourceQuery := by
  unfold update_raycast
  rw [h]
  rfl

/-- Witness for C9 on a concrete disabled state with one source. -/
theorem update_raycast_disabled_no_change_witness :
    (PluginState.mk false).enabled = false ∧
      update_raycast ⟨false⟩ []
        [⟨.Transform, some ⟨⟨0, 0, 0⟩, ⟨1, 0, 0⟩⟩, [(7, ⟨⟨⟨5, 5, 5⟩, ⟨1, 0, 0⟩⟩, 3, none⟩)]⟩]
        [] []
        = .ok
          [⟨.Transform, some ⟨⟨0, 0, 0⟩, ⟨1, 0, 0⟩⟩, [(7, ⟨⟨⟨5, 5, 5⟩, ⟨1, 0, 0⟩⟩, 3, none⟩)]⟩] :=
  ⟨rfl, update_raycast_disabled_no_change _ _ _ _ _ rfl⟩

/-- C10: the Geometric algorithm rejects every intersection whose ray
parameter `t` is negative, while Möller–Trumbore performs no such check: on
the concrete ray (origin (0,0,0), direction (1,0,0)) and the triangle
(-2,-1,2),(-2,2,-1),(-2,-1,-1) lying strictly behind the origin, the
`Include` policy returns a hit at (-2,0,0) — a point strictly behind the ray
origin — whereas the Geometric algorithm returns no hit. -/
theorem mt_no_t_check_geometric_rejects_negative_t :
    (∀ (ray : Ray3d) (tri : Triangle), geomT ray tri < 0 → raycast_geometric ray tri = none) ∧
      raycast_moller_trumbore ⟨⟨0, 0, 0⟩, ⟨1, 0, 0⟩⟩
          ⟨⟨-2, -1, 2⟩, ⟨-2, 2, -1⟩, ⟨-2, -1, -1⟩⟩ .Include
        = some ⟨⟨-2, 0, 0⟩, ⟨-1, 0, 0⟩⟩ ∧
      Vec3.dot (⟨-2, 0, 0⟩ - Ray3d.origin ⟨⟨0, 0, 0⟩, ⟨1, 0, 0⟩⟩)
          (Ray3d.direction ⟨⟨0, 0, 0⟩, ⟨1, 0, 0⟩⟩) < 0 ∧
      raycast_geometric ⟨⟨0, 0, 0⟩, ⟨1, 0, 0⟩⟩ ⟨⟨-2, -1, 2⟩, ⟨-2, 2, -1⟩, ⟨-2, -1, -1⟩⟩
        = none := by
  refine ⟨?_, ?_, ?_, ?_⟩
  · intro ray tri h
    by_cases hp : |(geomNormal tri).dot ray.direction| < EPSILON
    · show (if |(geomNormal tri).dot ray.direction| < EPSILON then none else _) = none
      rw [if_pos hp]
    · show (if |(geomNormal tri).dot ray.direction| < EPSILON then none
        else if geomT ray tri < 0 then none else _) = none
      rw [if_neg hp, if_pos h]
  · norm_num [raycast_moller_trumbore, mtCandidate, mtDet, mtU, mtV, mtT, EPSILON,
      Vec3.add_def, Vec3.sub_def, Vec3.add, Vec3.sub, Vec3.dot, Vec3.cross, Vec3.smul,
      Ray3d.new, Vec3.normalize, Vec3.lengthSquared, ratSqrt]
  · norm_num [Vec3.sub_def, Vec3.sub, Vec3.dot]
  · norm_num [raycast_geometric, geomNormal, geomT, EPSILON,
      Vec3.add_def, Vec3.sub_def, Vec3.add, Vec3.sub, Vec3.dot, Vec3.cross, Vec3.smul]

/-- Witness for C10's universally quantified conjunct at a concrete
behind-the-origin triangle. -/
theorem mt_no_t_check_geometric_rejects_negative_t_witness :
    geomT ⟨⟨0, 0, 0⟩, ⟨1, 0, 0⟩⟩ ⟨⟨-2, -1, 2⟩, ⟨-2, 2, -1⟩, ⟨-2, -1, -1⟩⟩ < 0 ∧
      raycast_geometric ⟨⟨0, 0, 0⟩, ⟨1, 0, 0⟩⟩ ⟨⟨-2, -1, 2⟩, ⟨-2, 2, -1⟩, ⟨-2, -1, -1⟩⟩
        = none := by
  have h : geomT ⟨⟨0, 0, 0⟩, ⟨1, 0, 0⟩⟩ ⟨⟨-2, -1, 2⟩, ⟨-2, 2, -1⟩, ⟨-2, -1, -1⟩⟩ < 0 := by
    norm_num [geomT, geomNormal, Vec3.sub_def, Vec3.sub, Vec3.dot, Vec3.cross]
  exact ⟨h, mt_no_t_check_geometric_rejects_negative_t.1 _ _ h⟩

theorem boundHit_no_vol (ray : Ray3d) (tf : GlobalTransform) :
    boundHit ray none tf = true := rfl

theorem boundHit_no_sphere (ray : Ray3d) (tf : GlobalTransform) :
    boundHit ray (some ⟨none⟩) tf = true := rfl

theorem boundHit_sphere (ray : Ray3d) (tf : GlobalTransform) (sphere : BoundingSphere) :
    boundHit ray (some ⟨some sphere⟩) tf = decide (sphereDet ray sphere tf ≥ 0) := rfl

/-- C7: a visible broad-phase candidate with no bounding volume, or with a
bounding volume whose sphere is not yet defined, always survives culling; a
visible candidate row can be excluded only when it carries a sphere whose
scaled discriminant test is negative. -/
theorem broad_phase_no_false_negatives (ray : Ray3d) (cullingQuery : List CullEntry)
    (visibility : Visible) (boundVol : Option BoundVol) (transform : GlobalTransform)
    (entity : Entity) (hmem : (visibility, boundVol, transform, entity) ∈ cullingQuery)
    (hvis : visibility.isVisible = true) :
    ((boundVol = none ∨ ∃ bv, boundVol = some bv ∧ bv.sphere = none) →
        entity ∈ culledList ray cullingQuery) ∧
      (entity ∉ culledList ray cullingQuery →
        ∃ bv sphere, boundVol = some bv ∧ bv.sphere = some sphere ∧
          sphereDet ray sphere transform < 0) := by
  constructor
  · intro hbv
    refine List.mem_filterMap.mpr ⟨(visibility, boundVol, transform, entity), hmem, ?_⟩
    have hbh : boundHit ray boundVol transform = true := by
      rcases hbv with h | ⟨⟨sph⟩, hbv, hs⟩
      · subst h
        exact boundHit_no_vol ray transform
      · subst hbv
        have hsph : sph = none := hs
        subst hsph
        exact boundHit_no_sphere ray transform
    show (if visibility.isVisible && boundHit ray boundVol transform
      then some entity else none) = some entity
    rw [hvis, hbh]
    rfl
  · intro hnot
    rcases hb : boundVol with _ | ⟨sphOpt⟩
    · subst hb
      refine absurd (List.mem_filterMap.mpr ⟨(visibility, none, transform, entity), hmem, ?_⟩)
        hnot
      show (if visibility.isVisible && boundHit ray none transform
        then some entity else none) = some entity
      rw [hvis, boundHit_no_vol]
      rfl
    · rcases sphOpt with _ | sphere
      · subst hb
        refine absurd
          (List.mem_filterMap.mpr ⟨(visibility, some ⟨none⟩, transform, entity), hmem, ?_⟩) hnot
        show (if visibility.isVisible && boundHit ray (some ⟨none⟩) transform
          then some entity else none) = some entity
        rw [hvis, boundHit_no_sphere]
        rfl
      · by_cases hd : sphereDet ray sphere transform < 0
        · exact ⟨⟨some sphere⟩, sphere, rfl, rfl, hd⟩
        · push_neg at hd
          subst hb
          refine absurd (List.mem_filterMap.mpr
            ⟨(visibility, some ⟨some sphere⟩, transform, entity), hmem, ?_⟩) hnot
          show (if visibility.isVisible && boundHit ray (some ⟨some sphere⟩) transform
            then some entity else none) = some entity
          rw [hvis, boundHit_sphere]
          simp [ge_iff_le, hd]

/-- Witness for C7: a visible target without any bounding volume survives
culling. -/
theorem broad_phase_no_false_negatives_witness :
    ((⟨true⟩, none, ⟨⟨0, 0, 0⟩, ⟨0, 0, 0, 1⟩, ⟨1, 1, 1⟩⟩, 5) : CullEntry) ∈
        ([(⟨true⟩, none, ⟨⟨0, 0, 0⟩, ⟨0, 0, 0, 1⟩, ⟨1, 1, 1⟩⟩, 5)] : List CullEntry) ∧
      (5 : Entity) ∈ culledList ⟨⟨0, 0, 0⟩, ⟨1, 0, 0⟩⟩
        [(⟨true⟩, none, ⟨⟨0, 0, 0⟩, ⟨0, 0, 0, 1⟩, ⟨1, 1, 1⟩⟩, 5)] :=
  ⟨List.mem_singleton.mpr rfl,
    (broad_phase_no_false_negatives ⟨⟨0, 0, 0⟩, ⟨1, 0, 0⟩⟩ _ _ _ _ _
      (List.mem_singleton.mpr rfl) rfl).1 (Or.inl rfl)⟩

theorem exceptFilterMap_ok_elim (f : α → Except String (Option β)) (l : List α) :
    ∀ (r : List β), exceptFilterMap f l = .ok r →
      r = l.filterMap fun a => okJoin (f a) := by
  induction l with
  | nil =>
    intro r h
    simp only [exceptFilterMap, List.filterMap_nil] at h ⊢
    exact (Except.ok.inj h).symm
  | cons a rest ih =>
    intro r h
    rcases hf : f a with e | ob
    · simp only [exceptFilterMap, hf] at h
      exact absurd h (by simp)
    · rcases ob with _ | b
      · simp only [exceptFilterMap, hf] at h
        rw [List.filterMap_cons]
        simp only [hf, okJoin]
        exact ih r h
      · simp only [exceptFilterMap, hf] at h
        rcases h2 : exceptFilterMap f rest with e2 | r2
        · rw [h2] at h
          exact absurd h (by simp [Except.map])
        · rw [h2] at h
          simp only [Except.map] at h
          obtain rfl : b :: r2 = r := Except.ok.inj h
          rw [List.filterMap_cons]
          have hoj : okJoin (f a) = some b := by rw [hf]; rfl
          rw [hoj, ih r2 h2]

theorem exceptFilterMap_perm (f : α → Except String (Option β)) (l l' : List α)
    (r r' : List β) (hp : l.Perm l') (h : exceptFilterMap f l = .ok r)
    (h' : exceptFilterMap f l' = .ok r') : r.Perm r' := by
  rw [exceptFilterMap_ok_elim f l r h, exceptFilterMap_ok_elim f l' r' h']
  exact hp.filterMap _

theorem exceptMapList_ok_forall2 (f : α → Except String β) (l : List α) :
    ∀ (r : List β), exceptMapList f l = .ok r →
      List.Forall₂ (fun a b => f a = .ok b) l r := by
  induction l with
  | nil =>
    intro r h
    simp only [exceptMapList] at h
    obtain rfl : ([] : List β) = r := Except.ok.inj h
    exact List.Forall₂.nil
  | cons a rest ih =>
    intro r h
    rcases hf : f a with e | b
    · simp only [exceptMapList, hf] at h
      exact absurd h (by simp)
    · simp only [exceptMapList, hf] at h
      rcases h2 : exceptMapList f rest with e2 | r2
      · rw [h2] at h
        exact absurd h (by simp [Except.map])
      · rw [h2] at h
        simp only [Except.map] at h
        obtain rfl : b :: r2 = r := Except.ok.inj h
        exact List.Forall₂.cons hf (ih r2 h2)

/-- `pickLE` is exactly the non-decreasing-distance order. -/
theorem pickLE_iff (a b : Entity × Intersection) :
    pickLE a b ↔ a.2.distance ≤ b.2.distance := by
  unfold pickLE pickCompare fpCmpOpt
  dsimp only [Option.getD]
  split_ifs with h1 h2
  · simp [h1.le]
  · simp [le_of_eq h2]
  · have hgt : b.2.distance < a.2.distance :=
      lt_of_le_of_ne (not_lt.mp h1) (fun hh => h2 hh.symm)
    simp [not_le.mpr hgt]

/-- The stored list produced by the model of `Vec::sort_by` is sorted by
non-decreasing distance. -/
theorem sortPicks_sorted (picks : List (Entity × Intersection)) :
    List.Pairwise (fun a b : Entity × Intersection => a.2.distance ≤ b.2.distance)
      (sortPicks picks) := by
  haveI htot : IsTotal (Entity × Intersection) pickLE :=
    ⟨by intro a b; rw [pickLE_iff, pickLE_iff]; exact le_total _ _⟩
  haveI htrans : IsTrans (Entity × Intersection) pickLE :=
    ⟨by
      intro a b c hab hbc
      rw [pickLE_iff] at hab hbc ⊢
      exact le_trans hab hbc⟩
  have hs := List.sorted_insertionSort pickLE picks
  exact List.Pairwise.imp (fun h => (pickLE_iff _ _).mp h) hs

theorem sortPicks_perm (picks : List (Entity × Intersection)) :
    (sortPicks picks).Perm picks :=
  List.perm_insertionSort pickLE picks

/-- One source's narrow-phase result sets are permutation-invariant under
reordering of the two target query snapshots. -/
theorem updateOneSource_perm (meshes : List (ℕ × Mesh)) (cq cq' : List CullEntry)
    (mq mq' : List MeshEntry) (hcq : cq.Perm cq') (hmq : mq.Perm mq')
    (s t t' : RayCastSource) (h : updateOneSource meshes cq mq s = .ok t)
    (h' : updateOneSource meshes cq' mq' s = .ok t') :
    t.intersections.Perm t'.intersections := by
  obtain ⟨cm, sray, ints⟩ := s
  rcases sray with _ | r
  · simp only [updateOneSource] at h h'
    obtain rfl := Except.ok.inj h
    obtain rfl := Except.ok.inj h'
    exact List.Perm.refl _
  · simp only [updateOneSource] at h h'
    have hperm : (culledList r cq).Perm (culledList r cq') := hcq.filterMap _
    have hcont : ∀ e : Entity, (culledList r cq').contains e = (culledList r cq).contains e := by
      intro e
      rw [Bool.eq_iff_iff]
      constructor
      · intro hin
        exact List.elem_iff.mpr (hperm.mem_iff.mpr (List.elem_iff.mp hin))
      · intro hin
        exact List.elem_iff.mpr (hperm.mem_iff.mp (List.elem_iff.mp hin))
    have hfeq : (mq'.filter fun entry => (culledList r cq').contains entry.2.2)
        = mq'.filter fun entry => (culledList r cq).contains entry.2.2 :=
      List.filter_congr (fun a _ => hcont a.2.2)
    rw [hfeq] at h'
    have hfperm : (mq.filter fun entry => (culledList r cq).contains entry.2.2).Perm
        (mq'.filter fun entry => (culledList r cq).contains entry.2.2) :=
      hmq.filter _
    rcases hfm : exceptFilterMap (processTarget meshes r)
        (mq.filter fun entry => (culledList r cq).contains entry.2.2) with e | picks
    · rw [hfm] at h
      exact absurd h (by simp)
    · rcases hfm' : exceptFilterMap (processTarget meshes r)
          (mq'.filter fun entry => (culledList r cq).contains entry.2.2) with e | picks'
      · rw [hfm'] at h'
        exact absurd h' (by simp)
      · rw [hfm] at h
        rw [hfm'] at h'
        obtain rfl := Except.ok.inj h
        obtain rfl := Except.ok.inj h'
        have hpp : picks.Perm picks' :=
          exceptFilterMap_perm _ _ _ _ _ hfperm hfm hfm'
        exact (sortPicks_perm picks).trans (hpp.trans (sortPicks_perm picks').symm)

/-- C3: after a successful run of `update_raycast` with the channel enabled,
every source whose ray is defined stores an intersection list sorted by
non-decreasing distance; permuting the two target query snapshots yields, for
each source, a permutation of the same (entity, intersection) pairs; and the
sort comparator maps every unorderable (`partial_cmp = None`) comparison to
`Equal` instead of failing. -/
theorem update_raycast_sorted_and_order_independent (state : PluginState)
    (meshes : List (ℕ × Mesh)) (sources : List RayCastSource) (cq : List CullEntry)
    (mq : List MeshEntry) (out : List RayCastSource) (hen : state.enabled = true)
    (hup : update_raycast state meshes sources cq mq = .ok out) :
    List.Forall₂ (fun s t : RayCastSource => s.ray.isSome = true →
        List.Pairwise (fun a b : Entity × Intersection => a.2.distance ≤ b.2.distance)
          t.intersections) sources out
      ∧ (∀ (cq' : List CullEntry) (mq' : List MeshEntry) (out' : List RayCastSource),
          cq.Perm cq' → mq.Perm mq' →
          update_raycast state meshes sources cq' mq' = .ok out' →
          List.Forall₂ (fun t t' : RayCastSource => t.intersections.Perm t'.intersections)
            out out')
      ∧ (∀ a b : Option ℚ, fpCmpOpt a b = none →
          (fpCmpOpt a b).getD Ordering.eq = Ordering.eq) := by
  have hok : ∀ (cq2 : List CullEntry) (mq2 : List MeshEntry) (out2 : List RayCastSource),
      update_raycast state meshes sources cq2 mq2 = .ok out2 →
      List.Forall₂ (fun s t => updateOneSource meshes cq2 mq2 s = .ok t) sources out2 := by
    intro cq2 mq2 out2 h2
    unfold update_raycast at h2
    rw [hen] at h2
    simp only [Bool.not_true, Bool.false_eq_true, if_false] at h2
    exact exceptMapList_ok_forall2 _ _ _ h2
  refine ⟨?_, ?_, ?_⟩
  · refine List.Forall₂.imp ?_ (hok cq mq out hup)
    intro s t h hray
    obtain ⟨r, hr⟩ := Option.isSome_iff_exists.mp hray
    obtain ⟨cm, sray, ints⟩ := s
    obtain rfl : sray = some r := hr
    simp only [updateOneSource] at h
    rcases hfm : exceptFilterMap (processTarget meshes r)
        (mq.filter fun entry => (culledList r cq).contains entry.2.2) with e | picks
    · rw [hfm] at h
      exact absurd h (by simp)
    · rw [hfm] at h
      obtain rfl := Except.ok.inj h
      exact sortPicks_sorted picks
  · intro cq' mq' out' hcq hmq hup'
    have fa := hok cq mq out hup
    have fa' := hok cq' mq' out' hup'
    clear hup hup' hok
    induction sources generalizing out out' with
    | nil =>
      cases fa
      cases fa'
      exact List.Forall₂.nil
    | cons s rest ih =>
      cases fa with
      | cons hst htail =>
        cases fa' with
        | cons hst' htail' =>
          exact List.Forall₂.cons
            (updateOneSource_perm meshes cq cq' mq mq' hcq hmq s _ _ hst hst')
            (ih _ _ htail htail')
  · intro a b h
    rw [h]
    rfl

/-- Witness for C3 on a one-source, zero-target scene. -/
theorem update_raycast_sorted_witness :
    (PluginState.mk true).enabled = true ∧
      update_raycast ⟨true⟩ [] [⟨.Transform, some ⟨⟨0, 0, 0⟩, ⟨1, 0, 0⟩⟩, []⟩] [] []
        = .ok [⟨.Transform, some ⟨⟨0, 0, 0⟩, ⟨1, 0, 0⟩⟩, []⟩] ∧
      (List.Forall₂ (fun s t : RayCastSource => s.ray.isSome = true →
          List.Pairwise (fun a b : Entity × Intersection => a.2.distance ≤ b.2.distance)
            t.intersections)
        [⟨.Transform, some ⟨⟨0, 0, 0⟩, ⟨1, 0, 0⟩⟩, []⟩]
        [⟨.Transform, some ⟨⟨0, 0, 0⟩, ⟨1, 0, 0⟩⟩, []⟩]
        ∧ (∀ (cq' : List CullEntry) (mq' : List MeshEntry) (out' : List RayCastSource),
            List.Perm [] cq' → List.Perm [] mq' →
            update_raycast ⟨true⟩ [] [⟨.Transform, some ⟨⟨0, 0, 0⟩, ⟨1, 0, 0⟩⟩, []⟩] cq' mq'
              = .ok out' →
            List.Forall₂ (fun t t' : RayCastSource => t.intersections.Perm t'.intersections)
              [⟨.Transform, some ⟨⟨0, 0, 0⟩, ⟨1, 0, 0⟩⟩, []⟩] out')
        ∧ (∀ a b : Option ℚ, fpCmpOpt a b = none →
            (fpCmpOpt a b).getD Ordering.eq = Ordering.eq)) :=
  ⟨rfl, rfl,
    update_raycast_sorted_and_order_independent ⟨true⟩ [] _ [] [] _ rfl rfl⟩

/-- C8 (amended): per-target narrow-phase behavior on mesh data errors: a
missing position attribute panics with "Mesh does not contain vertex
positions"; a missing index list panics with "No index matrix found in mesh"
(in the embedding, the panic aborts the whole frame's update rather than
skipping the one target); a non-TriangleList topology changes nothing — the
narrow phase runs anyway after the logged diagnostic. -/
theorem mesh_data_error_behavior :
    (∀ (topo : PrimitiveTopology) (ind : Option Indices) (ray : Ray3d)
        (tf : GlobalTransform) (e : Entity),
        meshPick ⟨topo, none, ind⟩ ray tf e
          = .error "Mesh does not contain vertex positions") ∧
      (∀ (topo : PrimitiveTopology) (verts : List Vec3) (ray : Ray3d)
        (tf : GlobalTransform) (e : Entity),
        meshPick ⟨topo, some (.Float32x3 verts), none⟩ ray tf e
          = .error "No index matrix found in mesh") ∧
      (∀ (mesh : Mesh) (topo : PrimitiveTopology) (ray : Ray3d) (tf : GlobalTransform)
        (e : Entity),
        meshPick { mesh with primitiveTopology := topo } ray tf e = meshPick mesh ray tf e) := by
  refine ⟨?_, ?_, ?_⟩
  · intro topo ind ray tf e
    rcases ind with _ | i
    · rfl
    · rcases i with l | l <;> rfl
  · intro topo verts ray tf e
    rfl
  · intro mesh topo ray tf e
    rcases mesh with ⟨t0, pos, ind⟩
    rcases pos with _ | vav
    · rfl
    · rcases vav with verts | _
      · rcases ind with _ | i
        · rfl
        · rcases i with l | l <;> rfl
      · rfl

/-- C8 counterexample: a frame with two visible targets, the first carrying a
mesh without an index list and the second a perfectly good mesh: the whole
update panics ("No index matrix found in mesh"), so the data error neither
skips just the one target nor lets processing of the remaining targets
continue. -/
theorem update_raycast_panics_on_missing_indices :
    update_raycast ⟨true⟩
        [(0, ⟨.TriangleList, some (.Float32x3 [⟨1, -1, 2⟩, ⟨1, 2, -1⟩, ⟨1, -1, -1⟩]), none⟩),
          (1, ⟨.TriangleList, some (.Float32x3 [⟨1, 0, 0⟩, ⟨1, 0, 1⟩, ⟨1, 1, 0⟩]),
            some (.U32 [0, 1, 2])⟩)]
        [⟨.Transform, some ⟨⟨0, 0, 0⟩, ⟨1, 0, 0⟩⟩, []⟩]
        [(⟨true⟩, none, ⟨⟨0, 0, 0⟩, ⟨0, 0, 0, 1⟩, ⟨1, 1, 1⟩⟩, 10),
          (⟨true⟩, none, ⟨⟨0, 0, 0⟩, ⟨0, 0, 0, 1⟩, ⟨1, 1, 1⟩⟩, 11)]
        [(0, ⟨⟨0, 0, 0⟩, ⟨0, 0, 0, 1⟩, ⟨1, 1, 1⟩⟩, 10),
          (1, ⟨⟨0, 0, 0⟩, ⟨0, 0, 0, 1⟩, ⟨1, 1, 1⟩⟩, 11)]
      = .error "No index matrix found in mesh" := rfl

theorem mtDet_eq_neg_ndot (ray : Ray3d) (tri : Triangle) :
    mtDet ray tri = -((geomNormal tri).dot ray.direction) := by
  obtain ⟨⟨ox, oy, oz⟩, ⟨dx, dy, dz⟩⟩ := ray
  obtain ⟨⟨ax, ay, az⟩, ⟨bx, bY, bz⟩, ⟨cx, cy, cz⟩⟩ := tri
  simp only [mtDet, geomNormal, Vec3.sub_def, Vec3.sub, Vec3.dot, Vec3.cross]
  ring

theorem mtT_numer_eq (ray : Ray3d) (tri : Triangle) :
    (tri.v2 - tri.v0).dot ((ray.origin - tri.v0).cross (tri.v1 - tri.v0))
      = (geomNormal tri).dot ray.origin - (geomNormal tri).dot tri.v0 := by
  obtain ⟨⟨ox, oy, oz⟩, ⟨dx, dy, dz⟩⟩ := ray
  obtain ⟨⟨ax, ay, az⟩, ⟨bx, bY, bz⟩, ⟨cx, cy, cz⟩⟩ := tri
  simp only [geomNormal, Vec3.sub_def, Vec3.sub, Vec3.dot, Vec3.cross]
  ring

/-- With the ray origin on the plane through the coordinate origin normal to
the triangle normal (`N·O = 0`), the geometric algorithm's plane parameter
(whose formula adds `N·O` instead of subtracting it) coincides with the
Möller–Trumbore ray parameter. -/
theorem geomT_eq_mtT (ray : Ray3d) (tri : Triangle)
    (hnd : (geomNormal tri).dot ray.direction ≠ 0)
    (hO : (geomNormal tri).dot ray.origin = 0) : geomT ray tri = mtT ray tri := by
  unfold geomT mtT
  rw [mtT_numer_eq, mtDet_eq_neg_ndot, hO]
  field_simp

set_option maxHeartbeats 1600000 in
theorem edge0_eq (ray : Ray3d) (tri : Triangle) (hdet : mtDet ray tri ≠ 0) :
    (geomNormal tri).dot ((tri.v1 - tri.v0).cross
        ((ray.origin + Vec3.smul (mtT ray tri) ray.direction) - tri.v0))
      = mtV ray tri * ((geomNormal tri).dot (geomNormal tri)) := by
  obtain ⟨⟨ox, oy, oz⟩, ⟨dx, dy, dz⟩⟩ := ray
  obtain ⟨⟨ax, ay, az⟩, ⟨bx, bY, bz⟩, ⟨cx, cy, cz⟩⟩ := tri
  simp only [mtT, mtV, mtDet, geomNormal, Vec3.add_def, Vec3.sub_def, Vec3.add, Vec3.sub,
    Vec3.dot, Vec3.cross, Vec3.smul] at hdet ⊢
  field_simp
  ring

set_option maxHeartbeats 1600000 in
theorem edge1_eq (ray : Ray3d) (tri : Triangle) (hdet : mtDet ray tri ≠ 0) :
    (geomNormal tri).dot ((tri.v2 - tri.v1).cross
        ((ray.origin + Vec3.smul (mtT ray tri) ray.direction) - tri.v1))
      = (1 - mtU ray tri - mtV ray tri) * ((geomNormal tri).dot (geomNormal tri)) := by
  obtain ⟨⟨ox, oy, oz⟩, ⟨dx, dy, dz⟩⟩ := ray
  obtain ⟨⟨ax, ay, az⟩, ⟨bx, bY, bz⟩, ⟨cx, cy, cz⟩⟩ := tri
  simp only [mtT, mtU, mtV, mtDet, geomNormal, Vec3.add_def, Vec3.sub_def, Vec3.add, Vec3.sub,
    Vec3.dot, Vec3.cross, Vec3.smul] at hdet ⊢
  field_simp
  ring

set_option maxHeartbeats 1600000 in
theorem edge2_eq (ray : Ray3d) (tri : Triangle) (hdet : mtDet ray tri ≠ 0) :
    (geomNormal tri).dot ((tri.v0 - tri.v2).cross
        ((ray.origin + Vec3.smul (mtT ray tri) ray.direction) - tri.v2))
      = mtU ray tri * ((geomNormal tri).dot (geomNormal tri)) := by
  obtain ⟨⟨ox, oy, oz⟩, ⟨dx, dy, dz⟩⟩ := ray
  obtain ⟨⟨ax, ay, az⟩, ⟨bx, bY, bz⟩, ⟨cx, cy, cz⟩⟩ := tri
  simp only [mtT, mtU, mtDet, geomNormal, Vec3.add_def, Vec3.sub_def, Vec3.add, Vec3.sub,
    Vec3.dot, Vec3.cross, Vec3.smul] at hdet ⊢
  field_simp
  ring

theorem dot_ne_zero_imp_dot_self_pos (v w : Vec3) (h : v.dot w ≠ 0) : 0 < v.dot v := by
  obtain ⟨x, y, z⟩ := v
  obtain ⟨a, b, c⟩ := w
  simp only [Vec3.dot] at h ⊢
  rcases eq_or_lt_of_le (add_nonneg (add_nonneg (mul_self_nonneg x) (mul_self_nonneg y)) (mul_self_nonneg z) : (0 : ℚ) ≤ x * x + y * y + z * z) with he | hl
  · exfalso
    have hx : x = 0 := by
      have h2 : x * x = 0 :=
        le_antisymm (by nlinarith [sq_nonneg y, sq_nonneg z]) (mul_self_nonneg x)
      exact mul_self_eq_zero.mp h2
    have hy : y = 0 := by
      have h2 : y * y = 0 :=
        le_antisymm (by nlinarith [sq_nonneg x, sq_nonneg z]) (mul_self_nonneg y)
      exact mul_self_eq_zero.mp h2
    have hz : z = 0 := by
      have h2 : z * z = 0 :=
        le_antisymm (by nlinarith [sq_nonneg x, sq_nonneg y]) (mul_self_nonneg z)
      exact mul_self_eq_zero.mp h2
    subst hx; subst hy; subst hz
    simp at h
  · exact hl

/-- C1 (amended): for rays whose origin satisfies `N·O = 0` (where `N` is the
unnormalized triangle normal — the plane-offset convention under which the
geometric algorithm's `t = (N·O + N·v0)/(N·D)` is the true plane parameter),
the Möller–Trumbore algorithm with back-faces included and the Geometric
algorithm agree exactly on hit/no-hit classification and report the identical
hit point and normal direction, once restricted to forward hits (`t ≥ 0`);
for backward intersections (`t < 0`) the Geometric algorithm always reports
no hit. -/
theorem moller_include_geometric_agree (ray : Ray3d) (tri : Triangle)
    (hO : (geomNormal tri).dot ray.origin = 0) :
    (0 ≤ mtT ray tri →
        raycast_geometric ray tri = raycast_moller_trumbore ray tri .Include) ∧
      (mtT ray tri < 0 → raycast_geometric ray tri = none) := by
  by_cases hpar : |(geomNormal tri).dot ray.direction| < EPSILON
  · have hg : raycast_geometric ray tri = none := by
      show (if |(geomNormal tri).dot ray.direction| < EPSILON then none else _) = none
      rw [if_pos hpar]
    have hm : raycast_moller_trumbore ray tri .Include = none := by
      have habs : |mtDet ray tri| < EPSILON := by
        rw [mtDet_eq_neg_ndot, abs_neg]
        exact hpar
      show (if |mtDet ray tri| < EPSILON then none else _) = none
      rw [if_pos habs]
    exact ⟨fun _ => by rw [hg, hm], fun _ => hg⟩
  · have hnd : (geomNormal tri).dot ray.direction ≠ 0 := by
      intro h0
      apply hpar
      rw [h0]
      norm_num [EPSILON]
    have hdet : mtDet ray tri ≠ 0 := by
      rw [mtDet_eq_neg_ndot]
      exact neg_ne_zero.mpr hnd
    have hT : geomT ray tri = mtT ray tri := geomT_eq_mtT ray tri hnd hO
    constructor
    · intro ht
      have hdet2 : ¬ |mtDet ray tri| < EPSILON := by
        rw [mtDet_eq_neg_ndot, abs_neg]
        exact hpar
      have hm : raycast_moller_trumbore ray tri .Include = mtCandidate ray tri := by
        show (if |mtDet ray tri| < EPSILON then none else mtCandidate ray tri) = _
        rw [if_neg hdet2]
      rw [hm]
      have ht' : ¬ geomT ray tri < 0 := not_lt.mpr (by rw [hT]; exact ht)
      show (if |(geomNormal tri).dot ray.direction| < EPSILON then none
        else if geomT ray tri < 0 then none
        else if (geomNormal tri).dot ((tri.v1 - tri.v0).cross
            ((ray.origin + Vec3.smul (geomT ray tri) ray.direction) - tri.v0)) < 0 then none
        else if (geomNormal tri).dot ((tri.v2 - tri.v1).cross
            ((ray.origin + Vec3.smul (geomT ray tri) ray.direction) - tri.v1)) < 0 then none
        else if (geomNormal tri).dot ((tri.v0 - tri.v2).cross
            ((ray.origin + Vec3.smul (geomT ray tri) ray.direction) - tri.v2)) < 0 then none
        else some (Ray3d.new (ray.origin + Vec3.smul (geomT ray tri) ray.direction)
          (geomNormal tri)))
        = mtCandidate ray tri
      rw [if_neg hpar, if_neg ht', hT]
      rw [edge0_eq ray tri hdet, edge1_eq ray tri hdet, edge2_eq ray tri hdet]
      have hNN : 0 < (geomNormal tri).dot (geomNormal tri) :=
        dot_ne_zero_imp_dot_self_pos _ _ hnd
      have hsign : ∀ x : ℚ,
          (x * ((geomNormal tri).dot (geomNormal tri)) < 0) ↔ x < 0 := by
        intro x
        constructor
        · intro h
          by_contra hx
          push_neg at hx
          nlinarith
        · intro h
          exact mul_neg_of_neg_of_pos h hNN
      simp only [hsign]
      show _ = (if ¬ (0 ≤ mtU ray tri ∧ mtU ray tri ≤ 1) then none
        else if mtV ray tri < 0 ∨ mtU ray tri + mtV ray tri > 1 then none
        else some (Ray3d.new (ray.origin + Vec3.smul (mtT ray tri) ray.direction)
          ((tri.v1 - tri.v0).cross (tri.v2 - tri.v0))))
      rcases lt_or_le (mtV ray tri) 0 with hv | hv
      · rw [if_pos hv]
        by_cases hu : 0 ≤ mtU ray tri ∧ mtU ray tri ≤ 1
        · rw [if_neg (not_not_intro hu), if_pos (Or.inl hv)]
        · rw [if_pos hu]
      · rw [if_neg (not_lt.mpr hv)]
        rcases lt_or_le (1 - mtU ray tri - mtV ray tri) 0 with huv | huv
        · rw [if_pos huv]
          have hgt : mtU ray tri + mtV ray tri > 1 := by linarith
          by_cases hu : 0 ≤ mtU ray tri ∧ mtU ray tri ≤ 1
          · rw [if_neg (not_not_intro hu), if_pos (Or.inr hgt)]
          · rw [if_pos hu]
        · rw [if_neg (not_lt.mpr huv)]
          rcases lt_or_le (mtU ray tri) 0 with hu | hu
          · rw [if_pos hu, if_pos (fun hc => absurd hc.1 (not_le.mpr hu))]
          · rw [if_neg (not_lt.mpr hu)]
            have hu1 : mtU ray tri ≤ 1 := by linarith
            rw [if_neg (not_not_intro ⟨hu, hu1⟩),
              if_neg (not_or.mpr ⟨not_lt.mpr hv, not_lt.mpr (by linarith)⟩)]
            rfl
    · intro ht
      show (if |(geomNormal tri).dot ray.direction| < EPSILON then none
        else if geomT ray tri < 0 then none else _) = none
      rw [if_neg hpar, if_pos (by rw [hT]; exact ht)]

/-- C1 counterexample: ray origin (0,0,0), direction (1,0,0), triangle
(-1,-1,2),(-1,2,-1),(-1,-1,-1) strictly behind the ray: Möller–Trumbore with
back-faces included reports a hit (at (-1,0,0)) while the Geometric algorithm
reports no hit, so the two algorithms do not agree on hit/no-hit
classification for every ray and triangle. -/
theorem moller_include_geometric_disagree_behind :
    raycast_moller_trumbore ⟨⟨0, 0, 0⟩, ⟨1, 0, 0⟩⟩
        ⟨⟨-1, -1, 2⟩, ⟨-1, 2, -1⟩, ⟨-1, -1, -1⟩⟩ .Include
      = some ⟨⟨-1, 0, 0⟩, ⟨-1, 0, 0⟩⟩ ∧
      raycast_geometric ⟨⟨0, 0, 0⟩, ⟨1, 0, 0⟩⟩ ⟨⟨-1, -1, 2⟩, ⟨-1, 2, -1⟩, ⟨-1, -1, -1⟩⟩
      = none := by
  constructor
  · norm_num [raycast_moller_trumbore, mtCandidate, mtDet, mtU, mtV, mtT, EPSILON,
      Vec3.add_def, Vec3.sub_def, Vec3.add, Vec3.sub, Vec3.dot, Vec3.cross, Vec3.smul,
      Ray3d.new, Vec3.normalize, Vec3.lengthSquared, ratSqrt]
  · norm_num [raycast_geometric, geomNormal, geomT, EPSILON,
      Vec3.add_def, Vec3.sub_def, Vec3.add, Vec3.sub, Vec3.dot, Vec3.cross, Vec3.smul]

/-- Witness for C1 (amended) at the repository's front-facing test triangle,
whose plane normal is orthogonal to the ray origin (0,0,0). -/
theorem moller_include_geometric_agree_witness :
    (geomNormal ⟨⟨1, -1, 2⟩, ⟨1, 2, -1⟩, ⟨1, -1, -1⟩⟩).dot
        (Ray3d.origin ⟨⟨0, 0, 0⟩, ⟨1, 0, 0⟩⟩) = 0 ∧
      ((0 ≤ mtT ⟨⟨0, 0, 0⟩, ⟨1, 0, 0⟩⟩ ⟨⟨1, -1, 2⟩, ⟨1, 2, -1⟩, ⟨1, -1, -1⟩⟩ →
          raycast_geometric ⟨⟨0, 0, 0⟩, ⟨1, 0, 0⟩⟩ ⟨⟨1, -1, 2⟩, ⟨1, 2, -1⟩, ⟨1, -1, -1⟩⟩
            = raycast_moller_trumbore ⟨⟨0, 0, 0⟩, ⟨1, 0, 0⟩⟩
              ⟨⟨1, -1, 2⟩, ⟨1, 2, -1⟩, ⟨1, -1, -1⟩⟩ .Include) ∧
        (mtT ⟨⟨0, 0, 0⟩, ⟨1, 0, 0⟩⟩ ⟨⟨1, -1, 2⟩, ⟨1, 2, -1⟩, ⟨1, -1, -1⟩⟩ < 0 →
          raycast_geometric ⟨⟨0, 0, 0⟩, ⟨1, 0, 0⟩⟩ ⟨⟨1, -1, 2⟩, ⟨1, 2, -1⟩, ⟨1, -1, -1⟩⟩
            = none)) := by
  have hO : (geomNormal ⟨⟨1, -1, 2⟩, ⟨1, 2, -1⟩, ⟨1, -1, -1⟩⟩).dot
      (Ray3d.origin ⟨⟨0, 0, 0⟩, ⟨1, 0, 0⟩⟩) = 0 := by
    norm_num [geomNormal, Vec3.sub_def, Vec3.sub, Vec3.dot, Vec3.cross]
  exact ⟨hO, moller_include_geometric_agree _ _ hO⟩
